import Mathlib

/-!
# Verification of the CRM-Service request/mutation pipeline

A shallow embedding, in Lean 4, of the parts of the CRM-Service Go backend
that carry the specification's invariants: the JWT/permission gate chain,
the role→permission table, the customer / contact / deal mutation handlers,
and the shared pagination layer.  Each definition is translated directly
from the corresponding Go source (file and function named in its doc
comment).  Machine integers are modelled as `Int`/`Nat`; GORM soft-delete
scoping is modelled as an explicit `deletedAt : Option Nat` filter; time is
an abstract `Nat` instant; fallible handlers return `Except ApiError α`.
-/

namespace CRM

/-- A JSON error response together with its HTTP status, as produced by the
handlers (`ErrorResponse` in `src/middleware/auth.go` plus the status used
at each site). -/
structure ApiError where
  status : Nat
  error : String
  code : String
  message : String
deriving DecidableEq, Repr

/-! ## Role/permission table — `src/models/user.go` (`RolePermissions`,
`HasPermission`) -/

/-- `RolePermissions` from `src/models/user.go` lines 29–47: the static
role → permission-set table, kept as an association list (Go map with
distinct literal keys). -/
def rolePermissions : List (String × List String) :=
  [ ("admin",   ["read", "write", "delete", "manage_all"]),
    ("manager", ["read", "write", "delete", "manage_all"]),
    ("agent",   ["read", "write", "manage_own"]) ]

/-- `HasPermission` from `src/models/user.go` lines 50–61: look the role up
in the table (absent role ⇒ `false`) and scan the permission list. -/
def hasPermission (role permission : String) : Bool :=
  match rolePermissions.lookup role with
  | none => false
  | some permissions => permissions.contains permission

/-- Modelled from the spec (§4.2): "admin and manager → {read, write,
delete, manage_all}; agent → {read, write, manage_own}"; any other role has
no permissions.  Spec-side definition used to state the refinement in
claim C10. -/
def specHasPermission (role permission : String) : Bool :=
  if role = "admin" ∨ role = "manager" then
    permission ∈ (["read", "write", "delete", "manage_all"] : List String)
  else if role = "agent" then
    permission ∈ (["read", "write", "manage_own"] : List String)
  else
    false

/-! ## Pagination — shared by every list endpoint
(`src/handlers/customers.go` `ListCustomers` lines 66–73,
`internal/handlers/deals.go` `ListDeals` lines 229–236, identical logic). -/

/-- A raw integer query parameter as seen through `c.DefaultQuery` +
`strconv.Atoi` with the error ignored: the parameter is absent (the Go code
then parses the default string), present but unparsable (`Atoi` yields `0`
and an ignored error), or parses to an integer. -/
inductive RawParam where
  | missing
  | unparsable
  | value (n : Int)
deriving DecidableEq, Repr

/-- `page, _ := strconv.Atoi(c.DefaultQuery("page", "1")); if page < 1
{ page = 1 }`. -/
def effectivePage (raw : RawParam) : Int :=
  let page : Int :=
    match raw with
    | .missing => 1        -- DefaultQuery supplies "1", which parses to 1
    | .unparsable => 0     -- Atoi error ignored, zero value used
    | .value n => n
  if page < 1 then 1 else page

/-- `pageSize, _ := strconv.Atoi(c.DefaultQuery("page_size", "20"));
if pageSize < 1 || pageSize > 100 { pageSize = 20 }`. -/
def effectivePageSize (raw : RawParam) : Int :=
  let pageSize : Int :=
    match raw with
    | .missing => 20       -- DefaultQuery supplies "20", which parses to 20
    | .unparsable => 0     -- Atoi error ignored, zero value used
    | .value n => n
  if pageSize < 1 ∨ pageSize > 100 then 20 else pageSize

/-- Modelled from the amended reading of the spec (§4.4) forced by the code:
page size defaults to 20, and an unparsable or out-of-[1,100] value falls
back to the default 20 (it is not clamped to the nearer bound). -/
def specPageSizeFallback (raw : RawParam) : Int :=
  match raw with
  | .missing => 20
  | .unparsable => 20
  | .value n => if 1 ≤ n ∧ n ≤ 100 then n else 20

/-- The list-endpoint response shape (`CustomerListResponse` /
`DealListResponse` in `src/models`): items, total count, effective page and
page size, and total pages. -/
structure ListResult (α : Type) where
  data : List α
  total : Nat
  page : Int
  pageSize : Int
  totalPages : Nat
deriving Repr

/-- The shared list-query pipeline of `ListCustomers`
(`src/handlers/customers.go` lines 64–145) over an abstract record store:
effective pagination, a filter predicate (the WHERE clauses), an abstract
reordering `order` standing for the ORDER BY clause, `query.Count` taken on
the same filtered query before `Offset`/`Limit`, and
`totalPages := int(math.Ceil(float64(total)/float64(pageSize)))` — written
here with exact integer arithmetic `(total + pageSize - 1) / pageSize`,
which agrees with the float computation on the int64 range in question. -/
def listQuery {α : Type} (order : List α → List α) (records : List α)
    (keep : α → Bool) (rawPage rawPageSize : RawParam) : ListResult α :=
  let page := effectivePage rawPage
  let pageSize := effectivePageSize rawPageSize
  let filtered := records.filter keep
  let total := filtered.length
  let offset := (page - 1) * pageSize
  { data := ((order filtered).drop offset.toNat).take pageSize.toNat
    total := total
    page := page
    pageSize := pageSize
    totalPages := (total + pageSize.toNat - 1) / pageSize.toNat }

/-! ## Identity verification and gates — `src/middleware/auth.go` -/

/-- `JWTClaims` (`src/middleware/auth.go` lines 180–187): the claims carried
by a verified token.  `userId` is the numeric `user_id` claim (`0` when
absent, as for a Go zero value). -/
structure JWTClaims where
  userId : Nat
  sub : String
  email : String
  name : String
  role : String
deriving DecidableEq, Repr

/-- `User` (`src/models/user.go` lines 4–10): the request-scoped identity
built from the claims. -/
structure User where
  id : Nat
  email : String
  name : String
  role : String
  isActive : Bool
deriving DecidableEq, Repr

/-- Outcome of `jwt.ParseWithClaims` for a token string, abstracting the
external JWT library: success with claims, or the three error classes the
middleware distinguishes (`jwt.ErrTokenExpired`, `jwt.ErrTokenMalformed`,
anything else — including a signing-method mismatch). -/
inductive TokenVerdict where
  | ok (claims : JWTClaims)
  | expired
  | malformed
  | invalid
deriving DecidableEq, Repr

/-- A token verifier: the behaviour of `jwt.ParseWithClaims` with the
service's secret, left abstract (token issuance/verification crypto is an
external collaborator per spec §1). -/
def Verifier : Type := String → TokenVerdict

/-- Split a character list at every occurrence of `sep` (the semantics of
`strings.Split`); structurally recursive so that proofs can evaluate it. -/
def splitOnChar (sep : Char) : List Char → List (List Char)
  | [] => [[]]
  | c :: cs =>
    if c = sep then [] :: splitOnChar sep cs
    else
      match splitOnChar sep cs with
      | [] => [[c]]
      | p :: ps => (c :: p) :: ps

/-- `strings.SplitN(authHeader, " ", 2)`: split at the first space only. -/
def splitN2 (s : String) : List String :=
  match splitOnChar ' ' s.toList with
  | [] => []
  | [x] => [String.mk x]
  | x :: rest => [String.mk x, String.mk (List.intercalate [' '] rest)]

/-- `strings.EqualFold` restricted to the ASCII arguments it is used with
here (the `"Bearer"` scheme comparison). -/
def asciiEqualFold (a b : String) : Bool :=
  a.toList.map Char.toLower == b.toList.map Char.toLower

/-- `ErrorResponse{Code: "MISSING_TOKEN"}` with status 401
(`src/middleware/auth.go` lines 209–216). -/
def missingTokenErr : ApiError :=
  ⟨401, "unauthorized", "MISSING_TOKEN", "Authorization header is required"⟩

/-- `ErrorResponse{Code: "INVALID_TOKEN_FORMAT"}` with status 401
(`src/middleware/auth.go` lines 220–226). -/
def invalidTokenFormatErr : ApiError :=
  ⟨401, "unauthorized", "INVALID_TOKEN_FORMAT",
    "Authorization header must be in 'Bearer <token>' format"⟩

/-- `ErrorResponse{Code: "INVALID_TOKEN"}` with status 401 and the
per-reason message (`src/middleware/auth.go` lines 241–257). -/
def invalidTokenErr (message : String) : ApiError :=
  ⟨401, "unauthorized", "INVALID_TOKEN", message⟩

/-- `ErrorResponse{Code: "MISSING_ROLE"}` with status 401
(`src/middleware/auth.go` lines 276–283). -/
def missingRoleErr : ApiError :=
  ⟨401, "unauthorized", "MISSING_ROLE", "Token must contain a role claim"⟩

/-- `ErrorResponse{Code: "INSUFFICIENT_PERMISSIONS"}` with status 403
(`src/middleware/auth.go` lines 348–353). -/
def insufficientPermissionsErr : ApiError :=
  ⟨403, "forbidden", "INSUFFICIENT_PERMISSIONS",
    "You do not have permission to perform this action"⟩

/-- The decision core of `JWTAuth` (`src/middleware/auth.go` lines 205–302):
given the raw `Authorization` header value (`""` when the header is absent,
as `c.GetHeader` returns) produce the verified identity or the abort
response.  Translated clause by clause: empty header, `Bearer` shape with
case-insensitive scheme (`strings.EqualFold`), token verification, and the
mandatory role claim. -/
def jwtAuth (verify : Verifier) (authHeader : String) : Except ApiError User :=
  if authHeader = "" then
    .error missingTokenErr
  else
    match splitN2 authHeader with
    | [scheme, tokenString] =>
      if ¬ asciiEqualFold scheme "Bearer" then
        .error invalidTokenFormatErr
      else
        match verify tokenString with
        | .expired => .error (invalidTokenErr "Token has expired")
        | .malformed => .error (invalidTokenErr "Token is malformed")
        | .invalid => .error (invalidTokenErr "Invalid token")
        | .ok claims =>
          if claims.role = "" then
            .error missingRoleErr
          else
            .ok { id := claims.userId, email := claims.email,
                  name := claims.name, role := claims.role, isActive := true }
    | _ => .error invalidTokenFormatErr

/-- A handler outcome: the handler's success payload, or an abort. -/
inductive HttpResult (ρ : Type) where
  | ok (r : ρ)
  | err (e : ApiError)
deriving DecidableEq, Repr

/-- The `JWTAuth` middleware as a function on the downstream chain: on gate
failure it aborts (`c.AbortWithStatusJSON`) without running `next`, leaving
the store untouched; on success it populates the identity and runs `next`. -/
def jwtAuthMW {σ ρ : Type} (verify : Verifier)
    (next : User → σ → σ × HttpResult ρ)
    (authHeader : String) (store : σ) : σ × HttpResult ρ :=
  match jwtAuth verify authHeader with
  | .error e => (store, .err e)
  | .ok user => next user store

/-- The `RequirePermission` middleware (`src/middleware/auth.go` lines
334–358) as a function on the downstream chain, reading the identity the
`JWTAuth` middleware placed in context. -/
def requirePermissionMW {σ ρ : Type} (permission : String)
    (next : User → σ → σ × HttpResult ρ)
    (user : User) (store : σ) : σ × HttpResult ρ :=
  if hasPermission user.role permission then next user store
  else (store, .err insufficientPermissionsErr)

/-- A protected route as wired in `src/routes/routes.go`:
`JWTAuth` → `RequirePermission(permission)` → handler, over an abstract
store type σ (the handler is the only component that may mutate the store). -/
def protectedApp {σ ρ : Type} (verify : Verifier) (permission : String)
    (handler : User → σ → σ × HttpResult ρ)
    (authHeader : String) (store : σ) : σ × HttpResult ρ :=
  jwtAuthMW verify (requirePermissionMW permission handler) authHeader store

/-- The gate chain's decision in isolation: `true` exactly when identity
verification fails or the permission gate denies — the cases in which the
middleware aborts before the handler runs. -/
def gateRejects (verify : Verifier) (permission : String)
    (authHeader : String) : Bool :=
  match jwtAuth verify authHeader with
  | .error _ => true
  | .ok user => ¬ hasPermission user.role permission

/-! ## Customer model and handlers — `src/models/customer.go`,
`src/handlers/customers.go`

JSON-binding mechanics (`ShouldBindJSON`, gin validator tags other than
plain `required`) are an external collaborator per spec §1; the `required`
emptiness checks are kept because the spec states them as part of each
payload contract. -/

/-- A customer record (`Customer` in `src/models/customer.go` lines 29–47):
entity fields plus the soft-delete tombstone from `BaseModel`.  Timestamps
are abstract `Nat` instants; `status` is the stored string of the
`CustomerStatus` enum. -/
structure Customer where
  id : Nat
  name : String
  email : String
  phone : String
  company : String
  role : String
  status : String
  assignedTo : Option Nat
  contacted : Bool
  nextFollowUpAt : Option Nat
  notes : String
  deletedAt : Option Nat
deriving DecidableEq, Repr

/-- `CustomerCreateRequest` (`src/handlers/customers.go` lines 28–38);
`""`/`none` encode omitted optional fields, matching the Go zero values
after JSON decoding. -/
structure CustomerCreateRequest where
  name : String
  email : String
  phone : String
  company : String
  role : String
  status : String
  assignedTo : Option Nat
  notes : String
  nextFollowUpAt : Option Nat
deriving DecidableEq, Repr

/-- `CustomerPatchRequest` (`src/handlers/customers.go` lines 55–60): every
field is a pointer, `none` meaning absent from the payload. -/
structure CustomerPatchRequest where
  status : Option String
  assignedTo : Option Nat
  contacted : Option Bool
  nextFollowUpAt : Option Nat
deriving DecidableEq, Repr

/-- Status 400 `INVALID_REQUEST` as emitted when `ShouldBindJSON` fails; the
Go message is the dynamic binding error, fixed here to a placeholder. -/
def invalidRequestErr : ApiError :=
  ⟨400, "validation_error", "INVALID_REQUEST", "invalid request body"⟩

/-- Status 400 `INVALID_EMAIL` (`src/handlers/customers.go` lines 162–167). -/
def invalidEmailErr : ApiError :=
  ⟨400, "validation_error", "INVALID_EMAIL", "Invalid email format"⟩

/-- Status 409 `EMAIL_EXISTS` (`src/handlers/customers.go` lines 173–178). -/
def emailExistsErr : ApiError :=
  ⟨409, "conflict", "EMAIL_EXISTS", "A customer with this email already exists"⟩

/-- Status 404 `CUSTOMER_NOT_FOUND` as the customers handler emits it. -/
def customerNotFoundErr : ApiError :=
  ⟨404, "not_found", "CUSTOMER_NOT_FOUND", "Customer not found"⟩

/-- Status 400 `NO_UPDATES` (`src/handlers/customers.go` lines 441–445). -/
def noUpdatesErr : ApiError :=
  ⟨400, "validation_error", "NO_UPDATES", "No fields to update"⟩

/-- Character class `[a-zA-Z0-9._%+-]` of the local part of
`isValidEmail`'s regex (`src/handlers/customers.go` line 536). -/
def isLocalChar (c : Char) : Bool :=
  c.isAlphanum || c = '.' || c = '_' || c = '%' || c = '+' || c = '-'

/-- Character class `[a-zA-Z0-9.-]` of the domain part of the same regex. -/
def isDomainChar (c : Char) : Bool :=
  c.isAlphanum || c = '.' || c = '-'

/-- `isValidEmail` (`src/handlers/customers.go` lines 535–538): whether the
string matches `^[a-zA-Z0-9._%+-]+@[a-zA-Z0-9.-]+\.[a-zA-Z]{2,}$`.  Since
neither character class contains `@` the string must contain exactly one
`@`; since `[a-zA-Z]{2,}$` contains no dot, the anchored suffix must start
after the last dot of the domain part.  The match is therefore decided by
that unique decomposition. -/
def isValidEmail (email : String) : Bool :=
  match splitOnChar '@' email.toList with
  | [localPart, domainPart] =>
    !localPart.isEmpty && localPart.all isLocalChar &&
    (match splitOnChar '.' domainPart with
     | [] => false
     | [_] => false
     | segs =>
       let tld := segs.getLastD []
       let front := List.intercalate ['.'] segs.dropLast
       !front.isEmpty && front.all isDomainChar &&
       decide (2 ≤ tld.length) && tld.all (·.isAlpha))
  | _ => false

/-- `CreateCustomer` (`src/handlers/customers.go` lines 149–212) acting on a
customer table: `required` bindings, the `isValidEmail` check, the
uniqueness probe `Where("email = ?").First` (GORM's default scope excludes
soft-deleted rows), defaulting status to `lead`, and the insert.  Returns
the table after the call together with the handler outcome. -/
def createCustomer (store : List Customer) (nextId : Nat)
    (req : CustomerCreateRequest) : List Customer × Except ApiError Customer :=
  if req.name = "" ∨ req.email = "" then
    (store, .error invalidRequestErr)
  else if ¬ isValidEmail req.email then
    (store, .error invalidEmailErr)
  else if (store.find? fun c => c.deletedAt = none && c.email = req.email).isSome then
    (store, .error emailExistsErr)
  else
    let status := if req.status = "" then "lead" else req.status
    let customer : Customer :=
      { id := nextId, name := req.name, email := req.email, phone := req.phone,
        company := req.company, role := req.role, status := status,
        assignedTo := req.assignedTo, contacted := false,
        nextFollowUpAt := req.nextFollowUpAt, notes := req.notes,
        deletedAt := none }
    (store ++ [customer], .ok customer)

/-- The field assignments of `PatchCustomer`'s `updates` map
(`src/handlers/customers.go` lines 426–438) applied to one record: each
present pointer field overwrites the stored column. -/
def applyCustomerPatch (req : CustomerPatchRequest) (c : Customer) : Customer :=
  { c with
    status := match req.status with | some s => s | none => c.status
    assignedTo := match req.assignedTo with | some a => some a | none => c.assignedTo
    contacted := match req.contacted with | some b => b | none => c.contacted
    nextFollowUpAt := match req.nextFollowUpAt with
      | some t => some t | none => c.nextFollowUpAt }

/-- `len(updates) > 0`: whether the PATCH payload carries any allow-listed
field. -/
def patchHasUpdates (req : CustomerPatchRequest) : Bool :=
  req.status.isSome || req.assignedTo.isSome ||
  req.contacted.isSome || req.nextFollowUpAt.isSome

/-- `PatchCustomer` (`src/handlers/customers.go` lines 384–465) acting on a
customer table: load by id (`First`, soft-deleted rows excluded), reject an
empty allow-list payload with `NO_UPDATES`, issue the GORM `Updates` (an
UPDATE of the matching live row), and re-fetch the record for the response. -/
def patchCustomer (store : List Customer) (id : Nat)
    (req : CustomerPatchRequest) : List Customer × Except ApiError Customer :=
  match store.find? (fun c => c.deletedAt = none && c.id = id) with
  | none => (store, .error customerNotFoundErr)
  | some _ =>
    if ¬ patchHasUpdates req then
      (store, .error noUpdatesErr)
    else
      let store1 := store.map fun c =>
        if c.deletedAt = none && c.id = id then applyCustomerPatch req c else c
      match store1.find? (fun c => c.deletedAt = none && c.id = id) with
      | some c' => (store1, .ok c')
      | none => (store1, .error customerNotFoundErr)

/-! ## Deal model and handlers — `src/models/deal.go`,
`internal/handlers/deals.go` -/

/-- `ValidDealStages` (`src/models/deal.go` lines 20–27). -/
def validDealStages : List String :=
  ["prospecting", "qualification", "proposal", "negotiation",
   "closed_won", "closed_lost"]

/-- `IsValidDealStage` (`src/models/deal.go` lines 30–37): linear scan of
`ValidDealStages`. -/
def IsValidDealStage (stage : String) : Bool :=
  validDealStages.contains stage

/-- A deal record (`Deal` in `src/models/deal.go` lines 40–60).  The
monetary amount (Go `float64`, not touched by any claim) is carried as an
exact rational; `stage` is the stored string. -/
structure Deal where
  id : Nat
  title : String
  description : String
  customerId : Nat
  contactId : Option Nat
  stage : String
  amount : Rat
  currency : String
  probability : Int
  expectedCloseDate : Option Nat
  actualCloseDate : Option Nat
  ownerId : Option Nat
  lostReason : String
deriving DecidableEq, Repr

/-- `DealCreateRequest` (`internal/handlers/deals.go` lines 190–201). -/
structure DealCreateRequest where
  title : String
  description : String
  customerId : Nat
  contactId : Option Nat
  stage : String
  amount : Rat
  currency : String
  probability : Int
  expectedCloseDate : Option Nat
  ownerId : Option Nat
deriving DecidableEq, Repr

/-- `DealUpdateRequest` (`internal/handlers/deals.go` lines 204–217). -/
structure DealUpdateRequest where
  title : String
  description : String
  customerId : Option Nat
  contactId : Option Nat
  stage : String
  amount : Option Rat
  currency : String
  probability : Option Int
  expectedCloseDate : Option Nat
  actualCloseDate : Option Nat
  ownerId : Option Nat
  lostReason : String
deriving DecidableEq, Repr

/-- `DealStageTransitionRequest` (`internal/handlers/deals.go` lines
220–223). -/
structure DealStageTransitionRequest where
  stage : String
  lostReason : String
deriving DecidableEq, Repr

/-- Status 400 `CUSTOMER_NOT_FOUND` as the deals handler emits it
(`internal/handlers/deals.go` lines 334–339: `validation_error`, not the
customers handler's 404). -/
def dealCustomerNotFoundErr : ApiError :=
  ⟨400, "validation_error", "CUSTOMER_NOT_FOUND", "Customer not found"⟩

/-- Status 400 `INVALID_STAGE` (`internal/handlers/deals.go` lines 491–496
and 592–597). -/
def invalidStageErr : ApiError :=
  ⟨400, "validation_error", "INVALID_STAGE", "Invalid deal stage"⟩

/-- `CreateDeal` (`internal/handlers/deals.go` lines 319–397): `required`
bindings on title and customer id, existence of the (live) referenced
customer, stage and currency defaults, the sequential probability clamp,
and the insert.  `customers` is the set of live customer ids; `nextId` the
id the insert assigns.  Note the handler applies no stage validation here. -/
def createDeal (customers : List Nat) (nextId : Nat)
    (req : DealCreateRequest) : Except ApiError Deal :=
  if req.title = "" ∨ req.customerId = 0 then
    .error invalidRequestErr
  else if ¬ customers.contains req.customerId then
    .error dealCustomerNotFoundErr
  else
    let stage := if req.stage = "" then "prospecting" else req.stage
    let currency := if req.currency = "" then "USD" else req.currency
    let p1 := if req.probability < 0 then 0 else req.probability
    let p2 := if p1 > 100 then 100 else p1
    .ok { id := nextId, title := req.title, description := req.description,
          customerId := req.customerId, contactId := req.contactId,
          stage := stage, amount := req.amount, currency := currency,
          probability := p2, expectedCloseDate := req.expectedCloseDate,
          actualCloseDate := none, ownerId := req.ownerId, lostReason := "" }

/-- The merge-and-save body of `UpdateDeal` (`internal/handlers/deals.go`
lines 476–545) on the loaded record: each provided field overwrites the
stored value; the source's sequence of per-field if-statements touches
pairwise disjoint fields and is rendered as one record update.  An unknown
non-empty stage aborts with `INVALID_STAGE` before anything is persisted
(in the source the merged in-memory record is discarded without `Save`).
No automatic stamping of the actual-close date happens here — it changes
only when the payload supplies one. -/
def updateDeal (deal : Deal) (req : DealUpdateRequest) : Except ApiError Deal :=
  if req.stage ≠ "" ∧ ¬ IsValidDealStage req.stage then
    .error invalidStageErr
  else
    .ok { deal with
      title := if req.title ≠ "" then req.title else deal.title
      description := if req.description ≠ "" then req.description else deal.description
      customerId := match req.customerId with
        | some cid => cid | none => deal.customerId
      contactId := match req.contactId with
        | some cid => some cid | none => deal.contactId
      stage := if req.stage ≠ "" then req.stage else deal.stage
      amount := match req.amount with | some a => a | none => deal.amount
      currency := if req.currency ≠ "" then req.currency else deal.currency
      probability := match req.probability with
        | some p => if (if p < 0 then 0 else p) > 100 then 100
                    else if p < 0 then 0 else p
        | none => deal.probability
      expectedCloseDate := match req.expectedCloseDate with
        | some t => some t | none => deal.expectedCloseDate
      actualCloseDate := match req.actualCloseDate with
        | some t => some t | none => deal.actualCloseDate
      ownerId := match req.ownerId with
        | some o => some o | none => deal.ownerId
      lostReason := if req.lostReason ≠ "" then req.lostReason else deal.lostReason }

/-- The stage-transition body of `PatchDeal` (`internal/handlers/deals.go`
lines 549–628) on the loaded record at transition time `now`: `required`
binding on stage, stage validation, the stage write, and — when the new
stage is `closed_won` or `closed_lost` — stamping the actual-close date
with the current time and recording a provided lost reason on
`closed_lost`. -/
def patchDeal (deal : Deal) (req : DealStageTransitionRequest)
    (now : Nat) : Except ApiError Deal :=
  if req.stage = "" then
    .error invalidRequestErr
  else if ¬ IsValidDealStage req.stage then
    .error invalidStageErr
  else
    let d1 := { deal with stage := req.stage }
    if req.stage = "closed_won" ∨ req.stage = "closed_lost" then
      let d2 := { d1 with actualCloseDate := some now }
      if req.stage = "closed_lost" ∧ req.lostReason ≠ "" then
        .ok { d2 with lostReason := req.lostReason }
      else
        .ok d2
    else
      .ok d1

/-! ## Contact model and handlers — `src/models/contact.go`,
`internal/handlers/contacts.go` -/

/-- A contact record (`Contact` in `src/models/contact.go` lines 4–17). -/
structure Contact where
  id : Nat
  customerId : Nat
  firstName : String
  lastName : String
  email : String
  phone : String
  position : String
  isPrimary : Bool
  notes : String
deriving DecidableEq, Repr

/-- `ContactCreateRequest` (`internal/handlers/contacts.go` lines 25–33). -/
structure ContactCreateRequest where
  firstName : String
  lastName : String
  email : String
  phone : String
  position : String
  isPrimary : Bool
  notes : String
deriving DecidableEq, Repr

/-- `ContactUpdateRequest` (`internal/handlers/contacts.go` lines 36–44):
`isPrimary` is a pointer, `none` meaning absent from the payload. -/
structure ContactUpdateRequest where
  firstName : String
  lastName : String
  email : String
  phone : String
  position : String
  isPrimary : Option Bool
  notes : String
deriving DecidableEq, Repr

/-- Status 404 `CONTACT_NOT_FOUND` (`internal/handlers/contacts.go` lines
206–210). -/
def contactNotFoundErr : ApiError :=
  ⟨404, "not_found", "CONTACT_NOT_FOUND", "Contact not found"⟩

/-- The state the contact handlers act on: the live customer ids, the
contact table, and the id the next insert assigns. -/
structure ContactStore where
  customers : List Nat
  contacts : List Contact
  nextId : Nat
deriving DecidableEq, Repr

/-- The sibling-clearing UPDATE of `CreateContact`
(`internal/handlers/contacts.go` line 161):
`Model(&Contact{}).Where("customer_id = ?", customerID).Update("is_primary",
false)`. -/
def clearPrimaries (customerId : Nat) (contacts : List Contact) : List Contact :=
  contacts.map fun ct =>
    if ct.customerId = customerId then { ct with isPrimary := false } else ct

/-- `CreateContact` (`internal/handlers/contacts.go` lines 119–188): live
parent customer required, `required` binding on the first name, the
sibling-clearing UPDATE when the new contact is primary, and the insert. -/
def createContact (s : ContactStore) (customerId : Nat)
    (req : ContactCreateRequest) : ContactStore × Except ApiError Contact :=
  if ¬ s.customers.contains customerId then
    (s, .error customerNotFoundErr)
  else if req.firstName = "" then
    (s, .error invalidRequestErr)
  else
    let contacts1 :=
      if req.isPrimary then clearPrimaries customerId s.contacts else s.contacts
    let newContact : Contact :=
      { id := s.nextId, customerId := customerId, firstName := req.firstName,
        lastName := req.lastName, email := req.email, phone := req.phone,
        position := req.position, isPrimary := req.isPrimary, notes := req.notes }
    ({ s with contacts := contacts1 ++ [newContact], nextId := s.nextId + 1 },
     .ok newContact)

/-- The field merge of `UpdateContact` (`internal/handlers/contacts.go`
lines 234–258) on the loaded record: non-empty strings overwrite, and a
present `isPrimary` pointer overwrites the flag. -/
def mergeContact (c : Contact) (req : ContactUpdateRequest) : Contact :=
  { c with
    firstName := if req.firstName ≠ "" then req.firstName else c.firstName
    lastName := if req.lastName ≠ "" then req.lastName else c.lastName
    email := if req.email ≠ "" then req.email else c.email
    phone := if req.phone ≠ "" then req.phone else c.phone
    position := if req.position ≠ "" then req.position else c.position
    notes := if req.notes ≠ "" then req.notes else c.notes
    isPrimary := match req.isPrimary with | some b => b | none => c.isPrimary }

/-- The sibling-clearing UPDATE of `UpdateContact`
(`internal/handlers/contacts.go` line 255):
`Where("customer_id = ? AND id != ?", contact.CustomerID, id)
.Update("is_primary", false)`. -/
def clearSiblings (customerId tid : Nat) (l : List Contact) : List Contact :=
  l.map fun ct =>
    if ct.customerId = customerId ∧ ct.id ≠ tid then
      { ct with isPrimary := false }
    else ct

/-- The `Save` of the merged record (`internal/handlers/contacts.go` line
260): an UPDATE of the row(s) carrying this primary key. -/
def saveContact (tid : Nat) (c' : Contact) (l : List Contact) : List Contact :=
  l.map fun ct => if ct.id = tid then c' else ct

/-- `UpdateContact` (`internal/handlers/contacts.go` lines 192–273): load by
id, merge the payload, clear the flag on all sibling contacts when
`is_primary=true` is being set, and `Save` the merged record. -/
def updateContact (s : ContactStore) (id : Nat)
    (req : ContactUpdateRequest) : ContactStore × Except ApiError Contact :=
  match s.contacts.find? (fun c => c.id = id) with
  | none => (s, .error contactNotFoundErr)
  | some c =>
    let contacts1 :=
      if req.isPrimary = some true then
        clearSiblings c.customerId id s.contacts
      else s.contacts
    let c' := mergeContact c req
    ({ s with contacts := saveContact id c' contacts1 }, .ok c')

/-- A contact mutation: the two operations claim C1 quantifies over. -/
inductive ContactOp where
  | create (customerId : Nat) (req : ContactCreateRequest)
  | update (id : Nat) (req : ContactUpdateRequest)
deriving DecidableEq, Repr

/-- The store after one contact mutation (the handler's response is
dropped). -/
def applyContactOp (s : ContactStore) (op : ContactOp) : ContactStore :=
  match op with
  | .create customerId req => (createContact s customerId req).1
  | .update id req => (updateContact s id req).1

/-- The store after a sequence of contact mutations. -/
def applyContactOps (s : ContactStore) (ops : List ContactOp) : ContactStore :=
  ops.foldl applyContactOp s

/-- Whether one operation, run against store `s`, successfully sets
`is_primary=true` on a contact of customer `cid`: a successful create for
`cid` with the flag set, or an update carrying `is_primary=true` whose
target contact exists and belongs to `cid`. -/
def opSetsPrimary (s : ContactStore) (cid : Nat) : ContactOp → Bool
  | .create customerId req =>
    customerId = cid && req.isPrimary &&
      (match (createContact s customerId req).2 with
       | .ok _ => true | .error _ => false)
  | .update id req =>
    req.isPrimary = some true &&
      (match s.contacts.find? (fun c => c.id = id) with
       | some c => c.customerId = cid
       | none => false)

/-- Whether some operation of the sequence, run at its place in the
sequence, sets `is_primary=true` on a contact of customer `cid`. -/
def seqSetsPrimary (s : ContactStore) (cid : Nat) : List ContactOp → Bool
  | [] => false
  | op :: rest =>
    opSetsPrimary s cid op || seqSetsPrimary (applyContactOp s op) cid rest

/-- The number of contacts of customer `cid` whose primary flag is set. -/
def primaryCount (s : ContactStore) (cid : Nat) : Nat :=
  s.contacts.countP fun c => decide (c.customerId = cid) && c.isPrimary

/-- Database well-formedness the storage layer guarantees: contact ids are
distinct (primary keys) and below the next id the store will assign. -/
def ContactStoreWF (s : ContactStore) : Prop :=
  (s.contacts.map Contact.id).Nodup ∧ ∀ c ∈ s.contacts, c.id < s.nextId

instance (s : ContactStore) : Decidable (ContactStoreWF s) := by
  unfold ContactStoreWF
  infer_instance

/-! ## Concrete test vectors used by witnesses and counterexamples -/

/-- An open deal with no actual-close date, as loaded before an update. -/
def dealOpen : Deal :=
  { id := 1, title := "Deal A", description := "", customerId := 1,
    contactId := none, stage := "prospecting", amount := 0, currency := "USD",
    probability := 0, expectedCloseDate := none, actualCloseDate := none,
    ownerId := none, lostReason := "" }

/-- A full-update payload that only moves the stage to `closed_won`. -/
def updateReqClosedWon : DealUpdateRequest :=
  { title := "", description := "", customerId := none, contactId := none,
    stage := "closed_won", amount := none, currency := "", probability := none,
    expectedCloseDate := none, actualCloseDate := none, ownerId := none,
    lostReason := "" }

/-- A full-update payload carrying only an unknown stage. -/
def updateReqBogusStage : DealUpdateRequest :=
  { updateReqClosedWon with stage := "bogus" }

/-- A stage-transition payload to `closed_lost` with a lost reason. -/
def patchReqClosedLost : DealStageTransitionRequest :=
  { stage := "closed_lost", lostReason := "budget" }

/-- A create payload carrying the unknown stage `"bogus"`. -/
def createReqBogusStage : DealCreateRequest :=
  { title := "Deal A", description := "", customerId := 1, contactId := none,
    stage := "bogus", amount := 0, currency := "", probability := 0,
    expectedCloseDate := none, ownerId := none }

/-- The deal `createDeal [1] 1 createReqBogusStage` persists. -/
def dealBogusStage : Deal :=
  { id := 1, title := "Deal A", description := "", customerId := 1,
    contactId := none, stage := "bogus", amount := 0, currency := "USD",
    probability := 0, expectedCloseDate := none, actualCloseDate := none,
    ownerId := none, lostReason := "" }

/-- A create payload with probability 250 (clamps to 100). -/
def createReqProb250 : DealCreateRequest :=
  { createReqBogusStage with stage := "", probability := 250 }

/-- An update payload with probability -5 (clamps to 0). -/
def updateReqProbNeg : DealUpdateRequest :=
  { updateReqClosedWon with stage := "", probability := some (-5) }

/-- A stage-transition payload carrying the unknown stage `"bogus"`. -/
def patchReqBogus : DealStageTransitionRequest :=
  { stage := "bogus", lostReason := "" }

/-- The deal `createDeal [1] 1 createReqProb250` persists: defaults applied
and probability clamped to 100. -/
def dealProb100 : Deal :=
  { dealBogusStage with stage := "prospecting", probability := 100 }

/-- The deal `patchDeal dealOpen patchReqClosedLost 42` persists: stage
moved, actual close stamped at 42, lost reason recorded. -/
def dealClosedLost : Deal :=
  { dealOpen with
    stage := "closed_lost"
    actualCloseDate := some 42
    lostReason := "budget" }

/-- The spec's scenario payload: `{name:"Jane Doe", email:"jane@x.com"}`. -/
def janeReq : CustomerCreateRequest :=
  { name := "Jane Doe", email := "jane@x.com", phone := "", company := "",
    role := "", status := "", assignedTo := none, notes := "",
    nextFollowUpAt := none }

/-- A customer PATCH payload touching two allow-listed fields. -/
def patchReqConcrete : CustomerPatchRequest :=
  { status := some "active", assignedTo := some 7, contacted := some true,
    nextFollowUpAt := none }

/-- A contact-create payload with the primary flag set. -/
def contactReqPrimary : ContactCreateRequest :=
  { firstName := "Amal", lastName := "", email := "", phone := "",
    position := "", isPrimary := true, notes := "" }

/-- A contact-update payload that only clears the primary flag. -/
def contactReqUnsetPrimary : ContactUpdateRequest :=
  { firstName := "", lastName := "", email := "", phone := "", position := "",
    isPrimary := some false, notes := "" }

/-- An empty contact store over the single live customer 1. -/
def contactStore0 : ContactStore :=
  { customers := [1], contacts := [], nextId := 1 }

/-- Create a primary contact for customer 1, then update it to
`is_primary=false`: the sequence refuting the "exactly one" reading of the
primary-flag invariant. -/
def contactOpsUnset : List ContactOp :=
  [ .create 1 contactReqPrimary, .update 1 contactReqUnsetPrimary ]

/-! # Theorems -/

/-! ## C10 — role table and permission check -/

/-- C10: the permission check agrees with the spec's fixed role→permission
table everywhere — in particular it returns `true` exactly when the
permission is in the role's fixed set — and for every role string outside
{admin, manager, agent} it returns `false` for every permission, so the
`RequirePermission` gate rejects such an identity as Forbidden
(`INSUFFICIENT_PERMISSIONS`) on every permission-gated operation without
running the downstream handler. -/
theorem hasPermission_refines_role_table :
    ∀ role perm : String,
      hasPermission role perm = specHasPermission role perm ∧
      (role ∉ (["admin", "manager", "agent"] : List String) →
        hasPermission role perm = false ∧
        ∀ (σ ρ : Type) (next : User → σ → σ × HttpResult ρ) (u : User) (s : σ),
          u.role = role →
          requirePermissionMW perm next u s = (s, .err insufficientPermissionsErr)) := by
  intro role perm
  have hmain : hasPermission role perm = specHasPermission role perm := by
    by_cases h1 : role = "admin"
    · subst h1; simp [hasPermission, specHasPermission, rolePermissions, List.lookup]
    · by_cases h2 : role = "manager"
      · subst h2; simp [hasPermission, specHasPermission, rolePermissions, List.lookup]
      · by_cases h3 : role = "agent"
        · subst h3; simp [hasPermission, specHasPermission, rolePermissions, List.lookup]
        · have e1 : (role == "admin") = false := beq_eq_false_iff_ne.mpr h1
          have e2 : (role == "manager") = false := beq_eq_false_iff_ne.mpr h2
          have e3 : (role == "agent") = false := beq_eq_false_iff_ne.mpr h3
          simp [hasPermission, specHasPermission, rolePermissions, List.lookup,
            e1, e2, e3, h1, h2, h3]
  refine ⟨hmain, fun hrole => ?_⟩
  simp only [List.mem_cons, List.mem_singleton, not_or] at hrole
  obtain ⟨h1, h2, h3⟩ := hrole
  have hfalse : hasPermission role perm = false := by
    rw [hmain]
    simp [specHasPermission, h1, h2, h3]
  refine ⟨hfalse, fun σ ρ next u s hu => ?_⟩
  simp [requirePermissionMW, hu, hfalse]

/-- Witness for C10 at the unrecognized role `"superuser"` and permission
`"read"`. -/
theorem hasPermission_refines_role_table_witness :
    "superuser" ∉ (["admin", "manager", "agent"] : List String) ∧
    hasPermission "superuser" "read" = false :=
  ⟨by decide, (((hasPermission_refines_role_table "superuser" "read").2 (by decide)).1)⟩

/-! ## C2 — actual-close stamping on closed stages -/

/-- C2 counterexample: a full update (PUT) moving an open deal to
`closed_won` persists the deal with the closed stage but a null
actual-close date — the claim's requirement that every full update into a
closed stage stamps the timestamp fails at this input. -/
theorem updateDeal_closed_without_stamp :
    updateDeal dealOpen updateReqClosedWon = .ok { dealOpen with stage := "closed_won" } ∧
    dealOpen.stage ≠ "closed_won" ∧
    ({ dealOpen with stage := "closed_won" } : Deal).stage = "closed_won" ∧
    ({ dealOpen with stage := "closed_won" } : Deal).actualCloseDate = none :=
  ⟨rfl, by decide, rfl, rfl⟩

/-- C2 as amended: only the stage-transition PATCH stamps the actual-close
timestamp — every successful patch whose resulting stage is `closed_won` or
`closed_lost` persists an actual-close date equal to the transition time;
a full update (PUT) never stamps it, leaving the stored actual-close date
unchanged unless the payload supplies one. -/
theorem patchDeal_stamps_actual_close :
    (∀ (deal : Deal) (req : DealStageTransitionRequest) (now : Nat) (d : Deal),
       patchDeal deal req now = .ok d →
       (d.stage = "closed_won" ∨ d.stage = "closed_lost") →
       d.actualCloseDate = some now) ∧
    (∀ (deal : Deal) (req : DealUpdateRequest) (d : Deal),
       req.actualCloseDate = none → updateDeal deal req = .ok d →
       d.actualCloseDate = deal.actualCloseDate) := by
  constructor
  · intro deal req now d h hc
    unfold patchDeal at h
    split at h
    · exact absurd h (by simp)
    · split at h
      · exact absurd h (by simp)
      · split at h
        · split at h <;> (simp only [Except.ok.injEq] at h; subst h; rfl)
        · rename_i hnc
          simp only [Except.ok.injEq] at h
          subst h
          exact absurd hc hnc
  · intro deal req d hacd h
    unfold updateDeal at h
    split at h
    · exact absurd h (by simp)
    · simp only [Except.ok.injEq] at h
      subst h
      simp [hacd]

/-- Witness for C2 (amended) at the spec's own scenario — PATCH to
`closed_lost` with lost reason `"budget"` at time 42 — and, for the PUT
conjunct, at the update payload that only moves the stage. -/
theorem patchDeal_stamps_actual_close_witness :
    (patchDeal dealOpen patchReqClosedLost 42 = .ok dealClosedLost ∧
     (dealClosedLost.stage = "closed_won" ∨ dealClosedLost.stage = "closed_lost") ∧
     dealClosedLost.actualCloseDate = some 42) ∧
    (updateReqClosedWon.actualCloseDate = none ∧
     updateDeal dealOpen updateReqClosedWon = .ok { dealOpen with stage := "closed_won" } ∧
     ({ dealOpen with stage := "closed_won" } : Deal).actualCloseDate = dealOpen.actualCloseDate) :=
  ⟨⟨rfl, Or.inr rfl,
    patchDeal_stamps_actual_close.1 dealOpen patchReqClosedLost 42 dealClosedLost
      rfl (Or.inr rfl)⟩,
   ⟨rfl, rfl,
    patchDeal_stamps_actual_close.2 dealOpen updateReqClosedWon
      { dealOpen with stage := "closed_won" } rfl rfl⟩⟩

/-! ## C3 — probability clamping -/

/-- C3: on deal create and on deal full update, a supplied probability is
stored clamped into [0,100] — inputs below 0 store 0, inputs above 100
store 100, and in-range inputs are stored unchanged. -/
theorem deal_probability_clamped :
    (∀ (customers : List Nat) (nextId : Nat) (req : DealCreateRequest) (d : Deal),
       createDeal customers nextId req = .ok d →
       0 ≤ d.probability ∧ d.probability ≤ 100 ∧
       (req.probability < 0 → d.probability = 0) ∧
       (100 < req.probability → d.probability = 100) ∧
       (0 ≤ req.probability → req.probability ≤ 100 → d.probability = req.probability)) ∧
    (∀ (deal : Deal) (req : DealUpdateRequest) (p : Int) (d : Deal),
       req.probability = some p → updateDeal deal req = .ok d →
       0 ≤ d.probability ∧ d.probability ≤ 100 ∧
       (p < 0 → d.probability = 0) ∧ (100 < p → d.probability = 100) ∧
       (0 ≤ p → p ≤ 100 → d.probability = p)) := by
  constructor
  · intro customers nextId req d h
    unfold createDeal at h
    split at h
    · exact absurd h (by simp)
    · split at h
      · exact absurd h (by simp)
      · simp only [Except.ok.injEq] at h
        subst h
        refine ⟨?_, ?_, ?_, ?_, ?_⟩ <;> (intros; simp only; split_ifs <;> omega)
  · intro deal req p d hp h
    unfold updateDeal at h
    split at h
    · exact absurd h (by simp)
    · simp only [Except.ok.injEq] at h
      subst h
      simp only [hp]
      refine ⟨?_, ?_, ?_, ?_, ?_⟩ <;> (intros; split_ifs <;> omega)

/-- Witness for C3: create with probability 250 stores 100; update with
probability -5 stores 0. -/
theorem deal_probability_clamped_witness :
    (createDeal [1] 1 createReqProb250 = .ok dealProb100 ∧
     100 < createReqProb250.probability ∧ dealProb100.probability = 100) ∧
    (updateReqProbNeg.probability = some (-5) ∧
     updateDeal dealOpen updateReqProbNeg = .ok dealOpen ∧
     dealOpen.probability = 0) :=
  ⟨⟨rfl, by decide,
    (deal_probability_clamped.1 [1] 1 createReqProb250 dealProb100 rfl).2.2.2.1 (by decide)⟩,
   ⟨rfl, rfl,
    (deal_probability_clamped.2 dealOpen updateReqProbNeg (-5) dealOpen rfl rfl).2.2.1
      (by decide)⟩⟩

/-! ## C4 — stage validation -/

/-- C4 counterexample: `CreateDeal` applies no stage validation — creating a
deal with the unknown stage `"bogus"` succeeds and persists the deal with
that stage, instead of failing with `InvalidStage`. -/
theorem createDeal_accepts_unknown_stage :
    createDeal [1] 1 createReqBogusStage = .ok dealBogusStage ∧
    dealBogusStage.stage = "bogus" ∧
    IsValidDealStage "bogus" = false :=
  ⟨rfl, rfl, by decide⟩

/-- C4 as amended: on full update and on stage-transition patch, a supplied
stage outside the six known values fails with `INVALID_STAGE` and nothing is
persisted; create does not validate the stage and persists a non-empty
unknown stage as given. -/
theorem stage_validated_on_update_and_patch :
    (∀ (deal : Deal) (req : DealUpdateRequest),
       req.stage ≠ "" → IsValidDealStage req.stage = false →
       updateDeal deal req = .error invalidStageErr) ∧
    (∀ (deal : Deal) (req : DealStageTransitionRequest) (now : Nat),
       req.stage ≠ "" → IsValidDealStage req.stage = false →
       patchDeal deal req now = .error invalidStageErr) := by
  constructor
  · intro deal req h1 h2
    unfold updateDeal
    rw [if_pos ⟨h1, by simp [h2]⟩]
  · intro deal req now h1 h2
    unfold patchDeal
    rw [if_neg h1, if_pos (by simp [h2])]

/-- Witness for C4 (amended) at the unknown stage `"bogus"`, on both the
update and the patch paths. -/
theorem stage_validated_on_update_and_patch_witness :
    (updateReqBogusStage.stage ≠ "" ∧
     IsValidDealStage updateReqBogusStage.stage = false ∧
     updateDeal dealOpen updateReqBogusStage = .error invalidStageErr) ∧
    (patchReqBogus.stage ≠ "" ∧
     IsValidDealStage patchReqBogus.stage = false ∧
     patchDeal dealOpen patchReqBogus 42 = .error invalidStageErr) :=
  ⟨⟨by decide, by decide,
    stage_validated_on_update_and_patch.1 dealOpen updateReqBogusStage
      (by decide) (by decide)⟩,
   ⟨by decide, by decide,
    stage_validated_on_update_and_patch.2 dealOpen patchReqBogus 42
      (by decide) (by decide)⟩⟩

/-! ## C5 — page-size handling -/

/-- C5 counterexample: a requested page size of 150 yields an effective page
size of 20, not the claimed clamp to 100; a requested page size of 0 yields
20, not the claimed clamp to 1. -/
theorem page_size_not_clamped :
    effectivePageSize (.value 150) = 20 ∧ effectivePageSize (.value 150) ≠ 100 ∧
    effectivePageSize (.value 0) = 20 ∧ effectivePageSize (.value 0) ≠ 1 := by
  decide

/-- C5 as amended: for every list query, an omitted page size is 20, and an
unparsable or out-of-[1,100] page size falls back to the default 20 (an
in-range value is used unchanged). -/
theorem page_size_fallback_default :
    ∀ raw, effectivePageSize raw = specPageSizeFallback raw := by
  intro raw
  cases raw with
  | missing => rfl
  | unparsable => rfl
  | value n =>
    simp only [effectivePageSize, specPageSizeFallback]
    split_ifs <;> omega

/-! ## C6 — pagination arithmetic -/

/-- Exact integer ceiling division `(t + ps - 1) / ps` equals the
mathematical ceiling `⌈t / ps⌉` (the quantity
`int(math.Ceil(float64(total)/float64(pageSize)))` computes). -/
theorem ceilDiv_eq_natCeil (t ps : ℕ) (h : 1 ≤ ps) :
    ((t + ps - 1) / ps : ℕ) = ⌈(t : ℚ) / (ps : ℚ)⌉₊ := by
  rcases Nat.eq_zero_or_pos t with ht | ht
  · subst ht
    rw [Nat.zero_add, Nat.div_eq_of_lt (by omega)]
    simp
  · have hps0 : 0 < ps := h
    have hq1 : 1 ≤ (t + ps - 1) / ps := by
      rw [Nat.one_le_div_iff hps0]; omega
    have hdm := Nat.div_add_mod (t + ps - 1) ps
    have hmlt : (t + ps - 1) % ps < ps := Nat.mod_lt _ hps0
    have hcomm : ((t + ps - 1) / ps) * ps = ps * ((t + ps - 1) / ps) :=
      Nat.mul_comm _ _
    have hub : t ≤ ((t + ps - 1) / ps) * ps := by rw [hcomm]; omega
    have hlb : ((t + ps - 1) / ps - 1) * ps < t := by
      rw [Nat.sub_mul, one_mul, hcomm]; omega
    symm
    rw [Nat.ceil_eq_iff (by omega)]
    constructor
    · rw [lt_div_iff (by exact_mod_cast hps0)]
      exact_mod_cast hlb
    · rw [div_le_iff (by exact_mod_cast hps0)]
      exact_mod_cast hub

/-- The effective page number is always at least 1. -/
theorem effectivePage_pos (raw : RawParam) : 1 ≤ effectivePage raw := by
  unfold effectivePage
  cases raw <;> simp <;> split_ifs <;> omega

/-- The effective page size is always at least 1. -/
theorem effectivePageSize_pos (raw : RawParam) : 1 ≤ effectivePageSize raw := by
  unfold effectivePageSize
  cases raw <;> simp <;> split_ifs <;> omega

/-- C6: for every list query over a fixed record set, `total` is the count
of records matching the same filter predicate used to produce the page,
`total_pages = ⌈total / page_size⌉`, and the number of returned items is
`min(page_size, total - (page-1)*page_size)` (natural-number subtraction
supplies the `max 0`), where page and page size are the effective values. -/
theorem list_query_pagination_correct :
    ∀ (α : Type) (order : List α → List α) (records : List α) (keep : α → Bool)
      (rawPage rawPageSize : RawParam),
      (∀ l, (order l).Perm l) →
      (listQuery order records keep rawPage rawPageSize).total
          = (records.filter keep).length ∧
      (listQuery order records keep rawPage rawPageSize).totalPages
          = ⌈((listQuery order records keep rawPage rawPageSize).total : ℚ)
              / ((effectivePageSize rawPageSize).toNat : ℚ)⌉₊ ∧
      (listQuery order records keep rawPage rawPageSize).data.length
          = min (effectivePageSize rawPageSize).toNat
              ((listQuery order records keep rawPage rawPageSize).total
                - ((effectivePage rawPage).toNat - 1)
                    * (effectivePageSize rawPageSize).toNat) := by
  intro α order records keep rawPage rawPageSize hord
  have ha := effectivePage_pos rawPage
  have hb := effectivePageSize_pos rawPageSize
  have hbN : 1 ≤ (effectivePageSize rawPageSize).toNat := by omega
  refine ⟨rfl, ?_, ?_⟩
  · show ((records.filter keep).length + (effectivePageSize rawPageSize).toNat - 1)
        / (effectivePageSize rawPageSize).toNat = _
    exact ceilDiv_eq_natCeil _ _ hbN
  · show (((order (records.filter keep)).drop
        ((effectivePage rawPage - 1) * effectivePageSize rawPageSize).toNat).take
        (effectivePageSize rawPageSize).toNat).length = _
    have hoff : ((effectivePage rawPage - 1) * effectivePageSize rawPageSize).toNat
        = ((effectivePage rawPage).toNat - 1) * (effectivePageSize rawPageSize).toNat := by
      have h1 : (0:ℤ) ≤ effectivePage rawPage - 1 := by omega
      have h2 : (0:ℤ) ≤ effectivePageSize rawPageSize := by omega
      rcases Int.eq_ofNat_of_zero_le h1 with ⟨m, hm⟩
      rcases Int.eq_ofNat_of_zero_le h2 with ⟨n, hn⟩
      rw [hm, hn, ← Int.natCast_mul, Int.toNat_natCast, Int.toNat_natCast]
      congr 1
      omega
    rw [List.length_take, List.length_drop,
        (hord (records.filter keep)).length_eq, hoff]
    rfl

/-- Witness for C6 at the spec's scenario: page 3 of page size 20 over 45
records (identity ordering) returns 5 items with 3 total pages. -/
theorem list_query_pagination_correct_witness :
    (∀ l : List Nat, (id l).Perm l) ∧
    ((listQuery id (List.range 45) (fun _ => true) (.value 3) (.value 20)).total
        = (List.filter (fun _ => true) (List.range 45)).length ∧
     (listQuery id (List.range 45) (fun _ => true) (.value 3) (.value 20)).totalPages
        = ⌈(((listQuery id (List.range 45) (fun _ => true) (.value 3) (.value 20)).total : ℚ))
            / ((effectivePageSize (.value 20)).toNat : ℚ)⌉₊ ∧
     (listQuery id (List.range 45) (fun _ => true) (.value 3) (.value 20)).data.length
        = min (effectivePageSize (.value 20)).toNat
            ((listQuery id (List.range 45) (fun _ => true) (.value 3) (.value 20)).total
              - ((effectivePage (.value 3)).toNat - 1)
                  * (effectivePageSize (.value 20)).toNat)) ∧
    (listQuery id (List.range 45) (fun _ => true) (.value 3) (.value 20)).data.length = 5 ∧
    (listQuery id (List.range 45) (fun _ => true) (.value 3) (.value 20)).totalPages = 3 :=
  ⟨fun l => List.Perm.refl l,
   list_query_pagination_correct Nat id (List.range 45) (fun _ => true)
     (.value 3) (.value 20) (fun l => List.Perm.refl l),
   by decide, by decide⟩

/-! ## C7 — duplicate-email conflict -/

/-- C7: against a customer table holding no live customer with the request's
email, a valid create succeeds and appends the new customer, and an
identical second create fails with the `EMAIL_EXISTS` conflict, leaving the
customer table unchanged by the second call.  Email comparison is string
equality on the stored value, hence case-sensitive. -/
theorem duplicate_email_conflict :
    ∀ (store : List Customer) (n1 n2 : Nat) (req : CustomerCreateRequest),
      req.name ≠ "" →
      isValidEmail req.email = true →
      (∀ c ∈ store, c.deletedAt = none → c.email ≠ req.email) →
      ∃ cust : Customer,
        createCustomer store n1 req = (store ++ [cust], .ok cust) ∧
        cust.email = req.email ∧ cust.deletedAt = none ∧
        createCustomer (store ++ [cust]) n2 req =
          (store ++ [cust], .error emailExistsErr) := by
  intro store n1 n2 req hname hvalid huniq
  have hemail : req.email ≠ "" := by
    intro h; rw [h] at hvalid; exact absurd hvalid (by decide)
  have hfind1 : store.find? (fun c => c.deletedAt = none && c.email = req.email) = none := by
    rw [List.find?_eq_none]
    intro c hc
    simp only [Bool.and_eq_true, decide_eq_true_eq, not_and]
    exact fun hdel he => huniq c hc hdel he
  refine ⟨{ id := n1, name := req.name, email := req.email, phone := req.phone,
            company := req.company, role := req.role,
            status := if req.status = "" then "lead" else req.status,
            assignedTo := req.assignedTo, contacted := false,
            nextFollowUpAt := req.nextFollowUpAt, notes := req.notes,
            deletedAt := none }, ?_, rfl, rfl, ?_⟩
  · unfold createCustomer
    rw [if_neg (not_or.mpr ⟨hname, hemail⟩), if_neg (by simp [hvalid]),
        if_neg (by simp [hfind1])]
  · unfold createCustomer
    rw [if_neg (not_or.mpr ⟨hname, hemail⟩), if_neg (by simp [hvalid]),
        if_pos (by
          simp only [List.find?_isSome]
          exact ⟨_, List.mem_append_right _ (List.mem_singleton.mpr rfl),
            by simp⟩)]

/-- Witness for C7 at the spec's scenario payload
`{name:"Jane Doe", email:"jane@x.com"}` against the empty table. -/
theorem duplicate_email_conflict_witness :
    (janeReq.name ≠ "" ∧ isValidEmail janeReq.email = true ∧
     (∀ c ∈ ([] : List Customer), c.deletedAt = none → c.email ≠ janeReq.email)) ∧
    (∃ cust : Customer,
      createCustomer [] 1 janeReq = ([] ++ [cust], .ok cust) ∧
      cust.email = janeReq.email ∧ cust.deletedAt = none ∧
      createCustomer ([] ++ [cust]) 2 janeReq =
        ([] ++ [cust], .error emailExistsErr)) :=
  ⟨⟨by decide, by decide, by simp⟩,
   duplicate_email_conflict [] 1 2 janeReq (by decide) (by decide) (by simp)⟩

/-! ## C8 — gate failures leave the store untouched -/

/-- C8: whenever the identity-verification / authorization gate chain
rejects a request (missing or bad credential, missing role, or a role
without the required permission), the composed middleware pipeline aborts
with an error response and the store after the request equals the store
before it, for every downstream handler; in particular a request with no
`Authorization` header is rejected with `MISSING_TOKEN` and mutates
nothing. -/
theorem gate_failure_no_mutation :
    ∀ (σ ρ : Type) (verify : Verifier) (permission : String)
      (handler : User → σ → σ × HttpResult ρ) (authHeader : String) (store : σ),
      (gateRejects verify permission authHeader = true →
        (protectedApp verify permission handler authHeader store).1 = store ∧
        ∃ e : ApiError, (protectedApp verify permission handler authHeader store).2 = .err e) ∧
      protectedApp verify permission handler "" store = (store, .err missingTokenErr) := by
  intro σ ρ verify permission handler authHeader store
  constructor
  · intro hrej
    unfold protectedApp jwtAuthMW requirePermissionMW
    unfold gateRejects at hrej
    cases hj : jwtAuth verify authHeader with
    | error e => exact ⟨rfl, e, rfl⟩
    | ok u =>
      rw [hj] at hrej
      simp only [decide_eq_true_eq] at hrej
      have hfalse : hasPermission u.role permission = false := by
        cases hb : hasPermission u.role permission
        · rfl
        · exact absurd hb hrej
      refine ⟨by simp [hfalse], insufficientPermissionsErr, by simp [hfalse]⟩
  · unfold protectedApp jwtAuthMW
    have h0 : jwtAuth verify "" = .error missingTokenErr := rfl
    rw [h0]

/-- Witness for C8: with no `Authorization` header, a rejecting verifier and
a handler that prepends to a `List Nat` store, the pipeline rejects and the
store `[1, 2]` is returned unchanged. -/
theorem gate_failure_no_mutation_witness :
    gateRejects (fun _ => TokenVerdict.invalid) "write" "" = true ∧
    (protectedApp (fun _ => TokenVerdict.invalid) "write"
        (fun _ s => ((0 :: s : List Nat), HttpResult.ok 0)) "" [1, 2]).1 = [1, 2] :=
  ⟨rfl,
   ((gate_failure_no_mutation (List Nat) Nat (fun _ => TokenVerdict.invalid) "write"
      (fun _ s => (0 :: s, HttpResult.ok 0)) "" [1, 2]).1 rfl).1⟩

/-! ## C9 — customer PATCH idempotence -/

/-- `applyCustomerPatch` never touches the soft-delete tombstone. -/
theorem applyCustomerPatch_deletedAt (req : CustomerPatchRequest) (c : Customer) :
    (applyCustomerPatch req c).deletedAt = c.deletedAt := rfl

/-- `applyCustomerPatch` never touches the record id. -/
theorem applyCustomerPatch_id (req : CustomerPatchRequest) (c : Customer) :
    (applyCustomerPatch req c).id = c.id := rfl

/-- Applying the same PATCH payload's field writes twice is the same as
applying them once: each present field is set to a payload constant. -/
theorem applyCustomerPatch_idem (req : CustomerPatchRequest) (c : Customer) :
    applyCustomerPatch req (applyCustomerPatch req c) = applyCustomerPatch req c := by
  rcases req with ⟨s, a, ct, nf⟩
  cases s <;> cases a <;> cases ct <;> cases nf <;> rfl

/-- C9: repeating an identical customer PATCH payload twice yields the same
stored customer table after the second call as after the first, for every
starting table, target id and payload (including the `NotFound` and
`NoFieldsProvided` rejection paths, which change nothing). -/
theorem patchCustomer_idempotent :
    ∀ (store : List Customer) (id : Nat) (req : CustomerPatchRequest),
      (patchCustomer (patchCustomer store id req).1 id req).1 =
        (patchCustomer store id req).1 := by
  intro store id req
  cases hf : store.find? (fun c => c.deletedAt = none && c.id = id) with
  | none =>
    have h1 : patchCustomer store id req = (store, .error customerNotFoundErr) := by
      unfold patchCustomer; rw [hf]
    simp [h1]
  | some c =>
    by_cases hu : patchHasUpdates req = true
    case neg =>
      have h1 : patchCustomer store id req = (store, .error noUpdatesErr) := by
        unfold patchCustomer; rw [hf]; simp [hu]
      simp [h1]
    case pos =>
      have hpf : ((fun c : Customer => (c.deletedAt = none && c.id = id : Bool)) ∘
          (fun c : Customer =>
            if c.deletedAt = none && c.id = id then applyCustomerPatch req c else c))
          = (fun c : Customer => (c.deletedAt = none && c.id = id : Bool)) := by
        funext x
        by_cases hx : (x.deletedAt = none && x.id = id : Bool) = true
        · simp only [Function.comp, hx, if_pos, applyCustomerPatch_deletedAt,
            applyCustomerPatch_id]
        · simp only [Function.comp, if_neg hx]
      have hc :=
        @List.find?_some _
          (fun c : Customer => (c.deletedAt = none && c.id = id : Bool)) c store hf
      have hfind2 : (store.map (fun c =>
          if c.deletedAt = none && c.id = id then applyCustomerPatch req c else c)).find?
          (fun c => c.deletedAt = none && c.id = id) = some (applyCustomerPatch req c) := by
        rw [List.find?_map, hpf, hf]
        have hc' : (decide (c.deletedAt = none) && decide (c.id = id)) = true := hc
        simp only [Bool.and_eq_true, decide_eq_true_eq] at hc'
        simp [hc'.1, hc'.2]
      have e1 : (patchCustomer store id req).1 =
          store.map (fun c =>
            if c.deletedAt = none && c.id = id then applyCustomerPatch req c else c) := by
        unfold patchCustomer
        rw [hf]
        simp only [hu, not_true_eq_false, if_false]
        cases hr : (store.map (fun c =>
            if c.deletedAt = none && c.id = id then applyCustomerPatch req c else c)).find?
            (fun c => c.deletedAt = none && c.id = id) <;> simp [hr]
      have e2 : (patchCustomer (store.map (fun c =>
            if c.deletedAt = none && c.id = id then applyCustomerPatch req c else c)) id req).1 =
          (store.map (fun c =>
            if c.deletedAt = none && c.id = id then applyCustomerPatch req c else c)).map
            (fun c =>
              if c.deletedAt = none && c.id = id then applyCustomerPatch req c else c) := by
        unfold patchCustomer
        rw [hfind2]
        simp only [hu, not_true_eq_false, if_false]
        cases hr : ((store.map (fun c =>
            if c.deletedAt = none && c.id = id then applyCustomerPatch req c else c)).map
            (fun c =>
              if c.deletedAt = none && c.id = id then applyCustomerPatch req c else c)).find?
            (fun c => c.deletedAt = none && c.id = id) <;> simp [hr]
      rw [e1, e2, List.map_map]
      apply List.map_congr_left
      intro x _
      simp only [Function.comp]
      by_cases hx : (x.deletedAt = none && x.id = id : Bool) = true
      · have hx2 : ((applyCustomerPatch req x).deletedAt = none &&
            (applyCustomerPatch req x).id = id : Bool) = true := by
          simp only [applyCustomerPatch_deletedAt, applyCustomerPatch_id]; exact hx
        simp only [if_pos hx, if_pos hx2, applyCustomerPatch_idem]
      · simp only [if_neg hx]

/-! ## C1 — the primary-contact flag invariant -/

/-- Counting helper: mapping a function that can only lose the property
never increases the count. -/
theorem countP_map_le (p : Contact → Bool) (f : Contact → Contact) (l : List Contact)
    (h : ∀ a ∈ l, p (f a) = true → p a = true) :
    (l.map f).countP p ≤ l.countP p := by
  induction l with
  | nil => simp
  | cons a as ih =>
    simp only [List.map_cons, List.countP_cons]
    have hih := ih (fun x hx hpx => h x (List.mem_cons_of_mem a hx) hpx)
    by_cases hpa : p (f a) = true
    · have hpa2 : p a = true := h a (List.mem_cons_self a as) hpa
      rw [if_pos hpa, if_pos hpa2]
      exact Nat.add_le_add_right hih 1
    · rw [if_neg hpa]
      split_ifs <;> omega

/-- With distinct ids, the contact `find?` returns is the only list member
carrying its id. -/
theorem find?_id_unique (id : Nat) (c : Contact) :
    ∀ (l : List Contact), (l.map Contact.id).Nodup →
      l.find? (fun ct => ct.id = id) = some c →
      ∀ ct ∈ l, ct.id = id → ct = c := by
  intro l
  induction l with
  | nil => intro _ hf; simp [List.find?] at hf
  | cons a as ih =>
    intro hnd hf ct hct hctid
    simp only [List.map_cons, List.nodup_cons] at hnd
    rcases List.mem_cons.mp hct with rfl | hmem
    · have hpa : (fun ct : Contact => decide (ct.id = id)) ct = true := by
        simp [hctid]
      rw [@List.find?_cons_of_pos _ (fun ct => decide (ct.id = id)) ct as hpa] at hf
      exact Option.some.inj hf
    · by_cases hpa : a.id = id
      · exfalso
        exact hnd.1 (List.mem_map.mpr ⟨ct, hmem, by rw [hctid, hpa]⟩)
      · have hpa' : ¬ ((fun ct : Contact => decide (ct.id = id)) a = true) := by
          simp [hpa]
        rw [@List.find?_cons_of_neg _ (fun ct => decide (ct.id = id)) a as hpa'] at hf
        exact ih hnd.2 hf ct hmem hctid

/-- With distinct ids, exactly one list member carries a found id. -/
theorem countP_id_one (id : Nat) (c : Contact) :
    ∀ (l : List Contact), (l.map Contact.id).Nodup →
      l.find? (fun ct => ct.id = id) = some c →
      l.countP (fun ct => ct.id = id) = 1 := by
  intro l
  induction l with
  | nil => intro _ hf; simp [List.find?] at hf
  | cons a as ih =>
    intro hnd hf
    simp only [List.map_cons, List.nodup_cons] at hnd
    by_cases hpa : a.id = id
    · have hzero : as.countP (fun ct => ct.id = id) = 0 := by
        rw [List.countP_eq_zero]
        intro ct hct
        simp only [decide_eq_true_eq]
        intro hcid
        exact hnd.1 (List.mem_map.mpr ⟨ct, hct, by rw [hcid, hpa]⟩)
      rw [List.countP_cons, hzero, if_pos (by simp [hpa])]
    · have hpa' : ¬ ((fun ct : Contact => decide (ct.id = id)) a = true) := by
        simp [hpa]
      rw [@List.find?_cons_of_neg _ (fun ct => decide (ct.id = id)) a as hpa'] at hf
      rw [List.countP_cons, if_neg (by simp [hpa])]
      simpa using ih hnd.2 hf

/-- Clearing a customer's primary flags leaves that customer with zero
primaries. -/
theorem count_clearPrimaries_zero (cid : Nat) (l : List Contact) :
    (clearPrimaries cid l).countP (fun c => decide (c.customerId = cid) && c.isPrimary) = 0 := by
  rw [List.countP_eq_zero]
  intro c hc
  rcases List.mem_map.mp hc with ⟨ct, hct, rfl⟩
  by_cases h : ct.customerId = cid <;> simp [h]

/-- Clearing one customer's primary flags does not change another
customer's primary count. -/
theorem count_clearPrimaries_other (cid cid' : Nat) (hne : cid' ≠ cid) (l : List Contact) :
    (clearPrimaries cid' l).countP (fun c => decide (c.customerId = cid) && c.isPrimary)
      = l.countP (fun c => decide (c.customerId = cid) && c.isPrimary) := by
  unfold clearPrimaries
  rw [List.countP_map]
  apply List.countP_congr
  intro ct _
  by_cases h : ct.customerId = cid'
  · simp [Function.comp, h, hne]
  · simp [Function.comp, h]

/-- `clearPrimaries` touches no record id. -/
theorem clearPrimaries_ids (cid : Nat) (l : List Contact) :
    (clearPrimaries cid l).map Contact.id = l.map Contact.id := by
  unfold clearPrimaries
  rw [List.map_map]
  apply List.map_congr_left
  intro ct _
  by_cases h : ct.customerId = cid <;> simp [h, Function.comp]

/-- `clearSiblings` touches no record id. -/
theorem clearSiblings_ids (cid tid : Nat) (l : List Contact) :
    (clearSiblings cid tid l).map Contact.id = l.map Contact.id := by
  unfold clearSiblings
  rw [List.map_map]
  apply List.map_congr_left
  intro ct _
  by_cases h : ct.customerId = cid ∧ ct.id ≠ tid <;> simp [h, Function.comp]

/-- `saveContact` with a record carrying the saved id touches no record id. -/
theorem saveContact_ids (tid : Nat) (c' : Contact) (hc : c'.id = tid) (l : List Contact) :
    (saveContact tid c' l).map Contact.id = l.map Contact.id := by
  unfold saveContact
  rw [List.map_map]
  apply List.map_congr_left
  intro ct _
  by_cases h : ct.id = tid
  · simp [Function.comp, h, hc]
  · simp [Function.comp, h]

/-- The merge never touches the record id. -/
theorem mergeContact_id (c : Contact) (req : ContactUpdateRequest) :
    (mergeContact c req).id = c.id := rfl

/-- The merge never touches the parent-customer reference. -/
theorem mergeContact_customerId (c : Contact) (req : ContactUpdateRequest) :
    (mergeContact c req).customerId = c.customerId := rfl

/-- A present `is_primary` pointer overwrites the flag. -/
theorem mergeContact_isPrimary_some (c : Contact) (req : ContactUpdateRequest) (b : Bool)
    (h : req.isPrimary = some b) : (mergeContact c req).isPrimary = b := by
  simp [mergeContact, h]

/-- An absent `is_primary` pointer leaves the flag unchanged. -/
theorem mergeContact_isPrimary_none (c : Contact) (req : ContactUpdateRequest)
    (h : req.isPrimary = none) : (mergeContact c req).isPrimary = c.isPrimary := by
  simp [mergeContact, h]

/-- Every contact mutation preserves the storage layer's well-formedness:
ids stay distinct and below the next id to be assigned. -/
theorem contactOp_WF (s : ContactStore) (op : ContactOp) (hwf : ContactStoreWF s) :
    ContactStoreWF (applyContactOp s op) := by
  obtain ⟨hnd, hlt⟩ := hwf
  cases op with
  | create cid req =>
    by_cases hc : s.customers.contains cid = true
    · by_cases hn : req.firstName = ""
      · have he : createContact s cid req = (s, .error invalidRequestErr) := by
          unfold createContact
          have hmem : cid ∈ s.customers := List.mem_of_elem_eq_true hc
          rw [if_neg (by simp [hmem]), if_pos hn]
        simp only [applyContactOp]
        rw [he]
        exact ⟨hnd, hlt⟩
      · have hmem : cid ∈ s.customers := List.mem_of_elem_eq_true hc
        simp only [applyContactOp]
        unfold createContact
        rw [if_neg (by simp [hmem]), if_neg hn]
        have hids : ((if req.isPrimary then clearPrimaries cid s.contacts
            else s.contacts) : List Contact).map Contact.id
            = s.contacts.map Contact.id := by
          split_ifs
          · exact clearPrimaries_ids cid s.contacts
          · rfl
        constructor
        · show (((if req.isPrimary then clearPrimaries cid s.contacts
              else s.contacts) ++ _).map Contact.id).Nodup
          rw [List.map_append, hids]
          simp only [List.map_cons, List.map_nil]
          rw [List.nodup_append]
          refine ⟨hnd, List.nodup_singleton _, ?_⟩
          intro x hx hx2
          rcases List.mem_map.mp hx with ⟨ct, hct, rfl⟩
          simp only [List.mem_singleton] at hx2
          exact absurd hx2 (Nat.ne_of_lt (hlt ct hct))
        · intro x hx
          rcases List.mem_append.mp hx with h | h
          · have hxid : x.id ∈ ((if req.isPrimary then clearPrimaries cid s.contacts
                else s.contacts) : List Contact).map Contact.id :=
              List.mem_map_of_mem _ h
            rw [hids] at hxid
            rcases List.mem_map.mp hxid with ⟨ct, hct, hid⟩
            rw [← hid]
            exact Nat.lt_succ_of_lt (hlt ct hct)
          · simp only [List.mem_singleton] at h
            subst h
            exact Nat.lt_succ_self _
    · have he : createContact s cid req = (s, .error customerNotFoundErr) := by
        unfold createContact
        rw [if_pos hc]
      simp only [applyContactOp]
      rw [he]
      exact ⟨hnd, hlt⟩
  | update id req =>
    cases hf : s.contacts.find? (fun c => c.id = id) with
    | none =>
      have he : updateContact s id req = (s, .error contactNotFoundErr) := by
        unfold updateContact; rw [hf]
      simp only [applyContactOp]
      rw [he]
      exact ⟨hnd, hlt⟩
    | some c =>
      have hcid : c.id = id := by simpa using List.find?_some hf
      have hmid : (mergeContact c req).id = id := by rw [mergeContact_id, hcid]
      simp only [applyContactOp]
      unfold updateContact
      rw [hf]
      simp only
      have hids : (saveContact id (mergeContact c req)
          (if req.isPrimary = some true then clearSiblings c.customerId id s.contacts
           else s.contacts)).map Contact.id = s.contacts.map Contact.id := by
        rw [saveContact_ids id _ hmid]
        split_ifs
        · exact clearSiblings_ids c.customerId id s.contacts
        · rfl
      constructor
      · show ((saveContact id (mergeContact c req) _).map Contact.id).Nodup
        rw [hids]
        exact hnd
      · intro x hx
        have hxid : x.id ∈ (saveContact id (mergeContact c req)
            (if req.isPrimary = some true then clearSiblings c.customerId id s.contacts
             else s.contacts)).map Contact.id := List.mem_map_of_mem _ hx
        rw [hids] at hxid
        rcases List.mem_map.mp hxid with ⟨ct, hct, hid⟩
        rw [← hid]
        exact hlt ct hct

/-- One mutation step against a well-formed store: an operation that sets
`is_primary=true` for customer `cid` makes that customer's primary count
exactly 1, and every other operation never increases it. -/
theorem primaryCount_step (s : ContactStore) (cid : Nat) (op : ContactOp)
    (hwf : ContactStoreWF s) :
    (opSetsPrimary s cid op = true →
      primaryCount (applyContactOp s op) cid = 1) ∧
    (opSetsPrimary s cid op = false →
      primaryCount (applyContactOp s op) cid ≤ primaryCount s cid) := by
  cases op with
  | create cid' req =>
    by_cases hc : s.customers.contains cid' = true
    · by_cases hn : req.firstName = ""
      · have he : createContact s cid' req = (s, .error invalidRequestErr) := by
          unfold createContact
          have hmem : cid' ∈ s.customers := List.mem_of_elem_eq_true hc
          rw [if_neg (by simp [hmem]), if_pos hn]
        constructor
        · intro hset
          exfalso
          simp only [opSetsPrimary] at hset
          rw [he] at hset
          simp at hset
        · intro _
          simp only [applyContactOp]
          rw [he]
      · have hmem : cid' ∈ s.customers := List.mem_of_elem_eq_true hc
        have he : createContact s cid' req =
            ({ s with
               contacts := (if req.isPrimary then clearPrimaries cid' s.contacts
                 else s.contacts) ++
                 [{ id := s.nextId, customerId := cid', firstName := req.firstName,
                    lastName := req.lastName, email := req.email, phone := req.phone,
                    position := req.position, isPrimary := req.isPrimary,
                    notes := req.notes }],
               nextId := s.nextId + 1 },
             .ok { id := s.nextId, customerId := cid', firstName := req.firstName,
                   lastName := req.lastName, email := req.email, phone := req.phone,
                   position := req.position, isPrimary := req.isPrimary,
                   notes := req.notes }) := by
          unfold createContact
          rw [if_neg (by simp [hmem]), if_neg hn]
        constructor
        · intro hset
          simp only [opSetsPrimary] at hset
          rw [he] at hset
          simp only [Bool.and_eq_true, decide_eq_true_eq] at hset
          obtain ⟨⟨hcc, hip⟩, -⟩ := hset
          subst hcc
          simp only [applyContactOp, primaryCount]
          rw [he]
          simp only [hip, if_pos]
          rw [List.countP_append, count_clearPrimaries_zero]
          simp [hip]
        · intro hset
          simp only [opSetsPrimary] at hset
          rw [he] at hset
          simp only [applyContactOp, primaryCount]
          rw [he]
          simp only
          rw [List.countP_append]
          by_cases hip : req.isPrimary = true
          · have hcc : ¬ cid' = cid := by
              intro hcc
              rw [hcc] at hset
              simp [hip] at hset
            rw [if_pos hip, count_clearPrimaries_other cid cid' hcc]
            simp [hip, hcc]
          · simp only [Bool.not_eq_true] at hip
            rw [if_neg (by simp [hip])]
            simp [hip]
    · have he : createContact s cid' req = (s, .error customerNotFoundErr) := by
        unfold createContact
        rw [if_pos hc]
      constructor
      · intro hset
        exfalso
        simp only [opSetsPrimary] at hset
        rw [he] at hset
        simp at hset
      · intro _
        simp only [applyContactOp]
        rw [he]
  | update id req =>
    obtain ⟨hnd, hlt⟩ := hwf
    cases hf : s.contacts.find? (fun c => c.id = id) with
    | none =>
      have he : updateContact s id req = (s, .error contactNotFoundErr) := by
        unfold updateContact; rw [hf]
      constructor
      · intro hset
        exfalso
        simp only [opSetsPrimary] at hset
        rw [hf] at hset
        simp at hset
      · intro _
        simp only [applyContactOp]
        rw [he]
    | some c =>
      have hcid : c.id = id := by simpa using List.find?_some hf
      have huniq := find?_id_unique id c s.contacts hnd hf
      by_cases hip : req.isPrimary = some true
      · have he : updateContact s id req =
            ({ s with contacts := saveContact id (mergeContact c req) (clearSiblings c.customerId id s.contacts) }, .ok (mergeContact c req)) := by
          unfold updateContact
          rw [hf]
          simp only [if_pos hip]
        by_cases hccid : c.customerId = cid
        · constructor
          · intro _
            simp only [applyContactOp, primaryCount]
            rw [he]
            simp only
            unfold saveContact clearSiblings
            rw [List.map_map, List.countP_map]
            refine Eq.trans (List.countP_congr fun ct hct => ?_)
              (countP_id_one id c s.contacts hnd hf)
            by_cases hctid : ct.id = id
            · simp [Function.comp, hctid, hccid,
                mergeContact_isPrimary_some c req true hip, mergeContact_customerId]
            · by_cases hcc2 : ct.customerId = c.customerId
              · simp [Function.comp, hctid, hcc2]
              · have hnc : ¬ ct.customerId = cid := by rw [← hccid]; exact hcc2
                simp [Function.comp, hctid, hcc2, hnc]
          · intro hset
            exfalso
            simp only [opSetsPrimary] at hset
            rw [hf] at hset
            simp [hip, hccid] at hset
        · constructor
          · intro hset
            exfalso
            simp only [opSetsPrimary] at hset
            rw [hf] at hset
            simp [hip, hccid] at hset
          · intro _
            simp only [applyContactOp, primaryCount]
            rw [he]
            simp only
            unfold saveContact clearSiblings
            rw [List.map_map]
            apply countP_map_le
            intro a ha hpa
            by_cases haid : a.id = id
            · exfalso
              have hac : a = c := huniq a ha haid
              subst hac
              simp [Function.comp, haid, mergeContact_customerId, hccid] at hpa
            · by_cases hcc2 : a.customerId = c.customerId
              · exfalso
                simp [Function.comp, haid, hcc2] at hpa
              · simp only [Function.comp] at hpa
                simp [haid, hcc2] at hpa
                simp [hpa]
      · have he : updateContact s id req =
            ({ s with contacts := saveContact id (mergeContact c req) s.contacts }, .ok (mergeContact c req)) := by
          unfold updateContact
          rw [hf]
          simp only [if_neg hip]
        constructor
        · intro hset
          exfalso
          simp only [opSetsPrimary] at hset
          simp [hip] at hset
        · intro _
          simp only [applyContactOp, primaryCount]
          rw [he]
          simp only
          unfold saveContact
          apply countP_map_le
          intro a ha hpa
          by_cases haid : a.id = id
          · have hac : a = c := huniq a ha haid
            subst hac
            cases hio : req.isPrimary with
            | none =>
              simp [haid, mergeContact_isPrimary_none a req hio,
                mergeContact_customerId] at hpa
              simp [hpa]
            | some b =>
              cases b with
              | true => exact absurd hio hip
              | false =>
                exfalso
                simp [haid, mergeContact_isPrimary_some a req false hio] at hpa
          · simp [haid] at hpa
            simp [hpa]

/-- A customer with at most one primary contact keeps at most one primary
contact across any sequence of contact mutations. -/
theorem primaryCount_le_one_preserved :
    ∀ (ops : List ContactOp) (s : ContactStore) (cid : Nat),
      ContactStoreWF s → primaryCount s cid ≤ 1 →
      primaryCount (applyContactOps s ops) cid ≤ 1 := by
  intro ops
  induction ops with
  | nil => intro s cid _ h; exact h
  | cons op rest ih =>
    intro s cid hwf h
    have hwf' := contactOp_WF s op hwf
    simp only [applyContactOps, List.foldl_cons]
    cases hop : opSetsPrimary s cid op with
    | true =>
      exact ih (applyContactOp s op) cid hwf'
        (le_of_eq ((primaryCount_step s cid op hwf).1 hop))
    | false =>
      exact ih (applyContactOp s op) cid hwf'
        (le_trans ((primaryCount_step s cid op hwf).2 hop) h)

/-- C1 counterexample: create a primary contact for customer 1 and then
update it to `is_primary=false`.  The sequence contains an operation that
sets `is_primary=true` for customer 1, yet afterwards zero contacts of that
customer are primary — "exactly one" fails. -/
theorem primary_flag_exactly_one_refuted :
    ContactStoreWF contactStore0 ∧
    seqSetsPrimary contactStore0 1 contactOpsUnset = true ∧
    primaryCount (applyContactOps contactStore0 contactOpsUnset) 1 = 0 := by
  refine ⟨by decide, by decide, by decide⟩

/-- C1 as amended: over a well-formed store (distinct contact ids), after
any sequence of contact creates/updates containing at least one operation
that sets `is_primary=true` for a contact of the given customer, at most
one contact of that customer has `is_primary=true` (each such operation
clears all sibling flags and leaves exactly one primary; a later update
setting `is_primary=false` can drop the count to zero). -/
theorem primary_flag_at_most_one :
    ∀ (s : ContactStore) (cid : Nat) (ops : List ContactOp),
      ContactStoreWF s →
      seqSetsPrimary s cid ops = true →
      primaryCount (applyContactOps s ops) cid ≤ 1 := by
  intro s cid ops
  induction ops generalizing s with
  | nil => intro _ hset; simp [seqSetsPrimary] at hset
  | cons op rest ih =>
    intro hwf hset
    simp only [seqSetsPrimary, Bool.or_eq_true] at hset
    have hwf' := contactOp_WF s op hwf
    simp only [applyContactOps, List.foldl_cons]
    rcases hset with hop | hrest
    · exact primaryCount_le_one_preserved rest (applyContactOp s op) cid hwf'
        (le_of_eq ((primaryCount_step s cid op hwf).1 hop))
    · exact ih (applyContactOp s op) hwf' hrest

/-- Witness for C1 (amended) at the concrete two-operation sequence of the
counterexample, over the initial store for customer 1. -/
theorem primary_flag_at_most_one_witness :
    ContactStoreWF contactStore0 ∧
    seqSetsPrimary contactStore0 1 contactOpsUnset = true ∧
    primaryCount (applyContactOps contactStore0 contactOpsUnset) 1 ≤ 1 :=
  ⟨by decide, by decide,
   primary_flag_at_most_one contactStore0 1 contactOpsUnset (by decide) (by decide)⟩

end CRM
